import Mathlib

/-!
Verification development for the hamilton_gui backend.

The definitions below are a shallow embedding of the job registry
(`backend/app/core/job_manager.py` together with the pydantic models of
`backend/app/models/job.py`) and of the model slot manager
(`backend/app/services/model_manager.py`).

Modelling conventions:
* clock readings (`datetime.utcnow()`, `time.time()`) are passed to each
  operation as an explicit integer parameter (epoch seconds);
* a raised Python exception is the `Except.error` case of an
  `Except String` value; an operation that mutates state and can raise
  returns the state only for the paths on which it returns normally;
* the payload of a job result (Python `Any`) is a type parameter;
* a float percentage rounded by `round(x, 2)` is represented exactly by
  its number of hundredths, an integer; the rounding itself is modelled
  as round-half-to-even on exact fractions (CPython rounds the nearest
  binary double half to even; on the fractions arising here the two
  agree except for sub-ulp artifacts, which no claim depends on);
* insertion-ordered Python dicts are association lists.
-/

deriving instance DecidableEq for Except

namespace HamiltonGui

/-! ### Job data model (`backend/app/models/job.py`) -/

inductive JobStatus where
  | pending
  | running
  | completed
  | failed
  deriving DecidableEq

/-- `job.status in (JobStatus.COMPLETED, JobStatus.FAILED)`. -/
def JobStatus.isTerminal : JobStatus → Bool
  | .completed => true
  | .failed => true
  | _ => false

inductive JobType where
  | clustering
  | concepts
  | attributes
  | relationships
  deriving DecidableEq

/-- Round-half-to-even of the fraction `num / den` (with `den > 0`) to the
nearest integer.  Used to model CPython `round`. -/
def roundHalfEven (num den : Int) : Int :=
  let f : Int := Int.fdiv num den
  let r : Int := num - f * den
  if 2 * r < den then f
  else if den < 2 * r then f + 1
  else if f % 2 = 0 then f else f + 1

/-- `JobProgress` with `percentage` held as hundredths of a percent, so the
pydantic bound `0 ≤ percentage ≤ 100` reads `0 ≤ percentage ≤ 10000`. -/
structure JobProgress where
  current : Int
  total : Int
  percentage : Int
  message : Option String
  deriving DecidableEq

/-- Constructing a `JobProgress` runs the pydantic field validators:
`current ≥ 0` (`ge=0`), `total ≥ 1` (`ge=1`), `0 ≤ percentage ≤ 100`
(`ge=0, le=100`).  A violated bound raises a `ValidationError`. -/
def JobProgress.make (current total percentage : Int) (message : Option String) :
    Except String JobProgress :=
  if 0 ≤ current ∧ 1 ≤ total ∧ 0 ≤ percentage ∧ percentage ≤ 10000 then
    .ok ⟨current, total, percentage, message⟩
  else
    .error "ValidationError"

structure Job (α : Type) where
  id : String
  type : JobType
  status : JobStatus
  databaseId : String
  progress : Option JobProgress
  result : Option α
  error : Option String
  createdAt : Int
  updatedAt : Int
  completedAt : Option Int
  deriving DecidableEq

/-! ### Job registry (`backend/app/core/job_manager.py`) -/

/-- The registry state: the `_jobs` dict and the `_tasks` dict (of which
only the keys matter to the embedded operations). -/
structure JobManager (α : Type) where
  jobs : List (String × Job α)
  tasks : List String
  deriving DecidableEq

variable {α : Type}

def JobManager.empty (α : Type) : JobManager α := ⟨[], []⟩

/-- `self._jobs.get(job_id)`. -/
def getJob (m : JobManager α) (job_id : String) : Option (Job α) :=
  (m.jobs.find? (fun p => p.1 == job_id)).map (·.2)

/-- In-place mutation of the job object held in the `_jobs` dict. -/
def setJobList (jobs : List (String × Job α)) (job_id : String) (j : Job α) :
    List (String × Job α) :=
  jobs.map (fun p => if p.1 == job_id then (p.1, j) else p)

def setJob (m : JobManager α) (job_id : String) (j : Job α) : JobManager α :=
  { m with jobs := setJobList m.jobs job_id j }

/-- `JobManager.create_job`.  The uuid-generated fresh id is supplied as a
parameter; dict assignment replaces an existing entry, otherwise appends. -/
def create_job (m : JobManager α) (job_id : String) (ty : JobType)
    (database_id : String) (now : Int) : JobManager α :=
  let job : Job α :=
    { id := job_id, type := ty, status := .pending, databaseId := database_id,
      progress := none, result := none, error := none,
      createdAt := now, updatedAt := now, completedAt := none }
  if (m.jobs.find? (fun p => p.1 == job_id)).isSome then setJob m job_id job
  else { m with jobs := m.jobs ++ [(job_id, job)] }

/-- `JobManager.update_progress`.  A `ValidationError` raised while building
the snapshot is the `Except.error` case; it propagates to the caller and
leaves the registry unchanged (the assignment is never reached). -/
def update_progress (m : JobManager α) (job_id : String) (current total : Int)
    (message : Option String) (now : Int) : Except String (JobManager α) :=
  match getJob m job_id with
  | none => .ok m
  | some job =>
    if job.status.isTerminal then .ok m
    else
      let percentage : Int :=
        if 0 < total then roundHalfEven (current * 10000) total else 0
      match JobProgress.make current total percentage message with
      | .error e => .error e
      | .ok prog =>
        .ok (setJob m job_id
          { job with
            progress := some prog, status := .running, updatedAt := now })

/-- `JobManager.complete_job`.  The two separate `utcnow()` reads for
`updatedAt` and `completedAt` are modelled by the one `now` parameter. -/
def complete_job (m : JobManager α) (job_id : String) (result : α) (now : Int) :
    JobManager α :=
  match getJob m job_id with
  | none => m
  | some job =>
    let m1 := setJob m job_id
      { job with
        status := .completed, result := some result,
        progress := some ⟨100, 100, 10000, some "Completed"⟩,
        updatedAt := now, completedAt := some now }
    { m1 with tasks := m1.tasks.filter (fun t => !(t == job_id)) }

/-- `JobManager.fail_job`. -/
def fail_job (m : JobManager α) (job_id : String) (error : String) (now : Int) :
    JobManager α :=
  match getJob m job_id with
  | none => m
  | some job =>
    let m1 := setJob m job_id
      { job with
        status := .failed, error := some error,
        updatedAt := now, completedAt := some now }
    { m1 with tasks := m1.tasks.filter (fun t => !(t == job_id)) }

/-- Outcome of awaiting the task coroutine: a normal return, or a raised
`Exception` with its message and its `traceback.format_exc()` text.
(`except Exception` does not catch `BaseException`, e.g. cancellation;
that distinction is a scheduling concern outside this embedding.) -/
inductive TaskOutcome (α : Type) where
  | ok (result : α)
  | raises (msg : String) (trace : String)
  deriving DecidableEq

/-- `JobManager.execute_job`: marks the job Running, runs the task, and
routes its outcome to `complete_job` or `fail_job`.  The driver itself
returns normally in both cases — the fault is consumed, never re-raised,
which is why the embedded function is total into `JobManager α`. -/
def execute_job (m : JobManager α) (job_id : String) (outcome : TaskOutcome α)
    (now : Int) : JobManager α :=
  match getJob m job_id with
  | none => m
  | some job =>
    let m1 := setJob m job_id { job with status := .running, updatedAt := now }
    match outcome with
    | .ok r => complete_job m1 job_id r now
    | .raises msg trace =>
      fail_job m1 job_id (msg ++ "\n\nTraceback:\n" ++ trace) now

/-- `age = (now - completedAt).total_seconds() / 3600 > max_age_hours`,
compared exactly: `(now - t)/3600 > H  ↔  now - t > 3600*H`. -/
def job_expired (max_age_hours now : Int) (j : Job α) : Bool :=
  j.status.isTerminal &&
    match j.completedAt with
    | some t => decide (3600 * max_age_hours < now - t)
    | none => false

/-- `JobManager.cleanup_old_jobs`: collect the expired terminal jobs, then
delete them (equivalently, filter them out in one pass). -/
def cleanup_old_jobs (m : JobManager α) (max_age_hours now : Int) : JobManager α :=
  { m with jobs := m.jobs.filter (fun p => !(job_expired max_age_hours now p.2)) }

/-! ### Call traces against one job id -/

/-- One registry call targeting a fixed job id, with the clock value read
during that call. -/
inductive JobOp (α : Type) where
  | update (current total : Int) (message : Option String) (now : Int)
  | complete (result : α) (now : Int)
  | fail (error : String) (now : Int)
  deriving DecidableEq

/-- Apply one call; a `ValidationError` escaping `update_progress` leaves
the registry as it was. -/
def applyOp (m : JobManager α) (job_id : String) : JobOp α → JobManager α
  | .update c t msg now =>
    match update_progress m job_id c t msg now with
    | .ok m1 => m1
    | .error _ => m
  | .complete r now => complete_job m job_id r now
  | .fail e now => fail_job m job_id e now

def runOps (m : JobManager α) (job_id : String) (ops : List (JobOp α)) :
    JobManager α :=
  ops.foldl (fun s op => applyOp s job_id op) m

/-! ### Basic lookup lemmas -/

theorem find?_setJobList (l : List (String × Job α)) (job_id : String) (j : Job α) :
    (setJobList l job_id j).find? (fun p => p.1 == job_id) =
      (l.find? (fun p => p.1 == job_id)).map (fun p => (p.1, j)) := by
  induction l with
  | nil => rfl
  | cons p rest ih =>
    simp only [setJobList, List.map_cons] at *
    by_cases h : (p.1 == job_id) = true
    · simp [List.find?_cons, h]
    · rw [if_neg h]
      rw [Bool.not_eq_true] at h
      simp only [List.find?_cons, h]
      exact ih

theorem getJob_setJob (m : JobManager α) (job_id : String) (j j' : Job α)
    (h : getJob m job_id = some j) :
    getJob (setJob m job_id j') job_id = some j' := by
  unfold getJob setJob at *
  simp only [find?_setJobList]
  cases hf : m.jobs.find? (fun p => p.1 == job_id) with
  | none => rw [hf] at h; simp at h
  | some p => simp

theorem getJob_complete_job (m : JobManager α) (job_id : String) (j : Job α)
    (h : getJob m job_id = some j) (r : α) (now : Int) :
    getJob (complete_job m job_id r now) job_id =
      some { j with
             status := .completed, result := some r,
             progress := some ⟨100, 100, 10000, some "Completed"⟩,
             updatedAt := now, completedAt := some now } := by
  unfold complete_job
  rw [h]
  exact getJob_setJob m job_id j _ h

theorem getJob_fail_job (m : JobManager α) (job_id : String) (j : Job α)
    (h : getJob m job_id = some j) (e : String) (now : Int) :
    getJob (fail_job m job_id e now) job_id =
      some { j with
             status := .failed, error := some e,
             updatedAt := now, completedAt := some now } := by
  unfold fail_job
  rw [h]
  exact getJob_setJob m job_id j _ h

theorem update_progress_terminal_noop (m : JobManager α) (job_id : String)
    (j : Job α) (h : getJob m job_id = some j) (ht : j.status.isTerminal = true)
    (c t : Int) (msg : Option String) (now : Int) :
    update_progress m job_id c t msg now = .ok m := by
  unfold update_progress
  rw [h]
  simp [ht]

/-! ### Invariant: a reachable non-terminal job has no result and no error -/

def cleanNonterminal (m : JobManager α) (job_id : String) : Prop :=
  ∀ j, getJob m job_id = some j → j.status.isTerminal = false →
    j.result = none ∧ j.error = none

theorem applyOp_update_eq (m : JobManager α) (job_id : String) (c t : Int)
    (msg : Option String) (now : Int) :
    applyOp m job_id (.update c t msg now) =
      match update_progress m job_id c t msg now with
      | .ok m1 => m1
      | .error _ => m := rfl

theorem applyOp_cleanNonterminal (m : JobManager α) (job_id : String)
    (op : JobOp α) (h : cleanNonterminal m job_id) :
    cleanNonterminal (applyOp m job_id op) job_id := by
  intro j1 hj1 hnt
  cases op with
  | update c t msg now =>
    cases hg : getJob m job_id with
    | none =>
      have hm : applyOp m job_id (.update c t msg now) = m := by
        rw [applyOp_update_eq]
        unfold update_progress
        rw [hg]
      rw [hm] at hj1
      exact h j1 hj1 hnt
    | some job =>
      by_cases hterm : job.status.isTerminal = true
      · have hm : applyOp m job_id (.update c t msg now) = m := by
          rw [applyOp_update_eq,
            update_progress_terminal_noop m job_id job hg hterm]
        rw [hm] at hj1
        exact h j1 hj1 hnt
      · rw [Bool.not_eq_true] at hterm
        cases hmk : JobProgress.make c t
            (if 0 < t then roundHalfEven (c * 10000) t else 0) msg with
        | error e =>
          have hm : applyOp m job_id (.update c t msg now) = m := by
            rw [applyOp_update_eq]
            unfold update_progress
            rw [hg]
            simp [hterm, hmk]
          rw [hm] at hj1
          exact h j1 hj1 hnt
        | ok prog =>
          have hm : applyOp m job_id (.update c t msg now) =
              setJob m job_id
                { job with
                  progress := some prog, status := .running, updatedAt := now } := by
            rw [applyOp_update_eq]
            unfold update_progress
            rw [hg]
            simp [hterm, hmk]
          rw [hm, getJob_setJob m job_id job _ hg] at hj1
          cases hj1
          exact h job hg hterm
  | complete r now =>
    cases hg : getJob m job_id with
    | none =>
      have hm : applyOp m job_id (.complete r now) = m := by
        show complete_job m job_id r now = m
        unfold complete_job
        rw [hg]
      rw [hm] at hj1
      exact h j1 hj1 hnt
    | some job =>
      have hj2 : getJob (complete_job m job_id r now) job_id = some j1 := hj1
      rw [getJob_complete_job m job_id job hg r now] at hj2
      cases hj2
      simp [JobStatus.isTerminal] at hnt
  | fail e now =>
    cases hg : getJob m job_id with
    | none =>
      have hm : applyOp m job_id (.fail e now) = m := by
        show fail_job m job_id e now = m
        unfold fail_job
        rw [hg]
      rw [hm] at hj1
      exact h j1 hj1 hnt
    | some job =>
      have hj2 : getJob (fail_job m job_id e now) job_id = some j1 := hj1
      rw [getJob_fail_job m job_id job hg e now] at hj2
      cases hj2
      simp [JobStatus.isTerminal] at hnt

theorem runOps_cleanNonterminal (job_id : String) (ops : List (JobOp α)) :
    ∀ m : JobManager α, cleanNonterminal m job_id →
      cleanNonterminal (runOps m job_id ops) job_id := by
  induction ops with
  | nil => intro m h; exact h
  | cons op rest ih =>
    intro m h
    exact ih _ (applyOp_cleanNonterminal m job_id op h)

theorem create_job_empty_clean (job_id : String) (ty : JobType) (db : String)
    (now : Int) :
    cleanNonterminal (create_job (JobManager.empty α) job_id ty db now) job_id := by
  intro j hj _
  simp [create_job, JobManager.empty, getJob, List.find?] at hj
  rw [← hj]
  exact ⟨rfl, rfl⟩

/-! ### Claim C1 -/

/-- Registry after `create` then `complete(id, "r1")`: the job's first
terminal call stored state Completed with result `"r1"`. -/
def c1_state_completed : JobManager String :=
  complete_job (create_job (JobManager.empty String) "job_a" .clustering "db1" 0)
    "job_a" "r1" 1

/-- C1, counterexample: after the first terminal call (`complete`, storing
Completed/result `"r1"`), a subsequent `fail(id, "boom")` is not a no-op —
it flips the stored state to Failed and writes the error field, although
the claim says every call after a terminal one is a no-op. -/
theorem c1_counterexample :
    (getJob c1_state_completed "job_a").map Job.status = some .completed ∧
    (getJob (fail_job c1_state_completed "job_a" "boom" 2) "job_a").map Job.status
        = some .failed ∧
    (getJob (fail_job c1_state_completed "job_a" "boom" 2) "job_a").map Job.error
        = some (some "boom") := by
  decide

/-- C1 (amended): once a job is in a terminal state, subsequent
`update_progress` calls are no-ops, exactly as claimed; `complete_job` and
`fail_job`, however, are not guarded by the terminal state — on any known
job, terminal or not, they overwrite status, result resp. error, and the
timestamps. -/
theorem c1_amended (m : JobManager α) (job_id : String) (j : Job α)
    (h : getJob m job_id = some j) (ht : j.status.isTerminal = true)
    (c t : Int) (msg : Option String) (r : α) (e : String) (now : Int) :
    update_progress m job_id c t msg now = .ok m ∧
    getJob (complete_job m job_id r now) job_id =
      some { j with
             status := .completed, result := some r,
             progress := some ⟨100, 100, 10000, some "Completed"⟩,
             updatedAt := now, completedAt := some now } ∧
    getJob (fail_job m job_id e now) job_id =
      some { j with
             status := .failed, error := some e,
             updatedAt := now, completedAt := some now } :=
  ⟨update_progress_terminal_noop m job_id j h ht c t msg now,
   getJob_complete_job m job_id j h r now,
   getJob_fail_job m job_id j h e now⟩

/-- Concrete completed job used to instantiate the C1 hypotheses. -/
def c1_witness_job : Job String :=
  { id := "job_a", type := .clustering, status := .completed, databaseId := "db1",
    progress := some ⟨100, 100, 10000, some "Completed"⟩, result := some "r1",
    error := none, createdAt := 0, updatedAt := 1, completedAt := some 1 }

/-- C1, witness: the amended statement applied to the concrete registry
holding one completed job. -/
theorem c1_witness :
    getJob c1_state_completed "job_a" = some c1_witness_job ∧
    c1_witness_job.status.isTerminal = true ∧
    (update_progress c1_state_completed "job_a" 1 2 (some "late") 5
        = .ok c1_state_completed ∧
     getJob (complete_job c1_state_completed "job_a" "r2" 5) "job_a" =
       some { c1_witness_job with
              status := .completed, result := some "r2",
              progress := some ⟨100, 100, 10000, some "Completed"⟩,
              updatedAt := 5, completedAt := some 5 } ∧
     getJob (fail_job c1_state_completed "job_a" "boom2" 5) "job_a" =
       some { c1_witness_job with
              status := .failed, error := some "boom2",
              updatedAt := 5, completedAt := some 5 }) :=
  ⟨by decide, by decide,
   c1_amended c1_state_completed "job_a" c1_witness_job (by decide) (by decide)
     1 2 (some "late") "r2" "boom2" 5⟩

/-! ### Claim C2 -/

/-- Registry after `create`, `complete(id, "payload")`, `fail(id, ...)`. -/
def c2_state_both : JobManager String :=
  fail_job
    (complete_job (create_job (JobManager.empty String) "job_b" .concepts "db1" 0)
      "job_b" "payload" 1)
    "job_b" "late failure" 2

/-- C2, counterexample: the claim says that after the job first reaches a
terminal state exactly one of result/error is non-absent for every further
sequence of operations; but after `complete` followed by `fail` both the
result and the error are non-absent. -/
theorem c2_counterexample :
    (getJob c2_state_both "job_b").map Job.result = some (some "payload") ∧
    (getJob c2_state_both "job_b").map Job.error = some (some "late failure") ∧
    (getJob c2_state_both "job_b").map Job.status = some .failed := by
  decide

/-- C2 (amended): immediately after the job's FIRST terminal transition,
exactly one of result/error is non-absent — a reachable non-terminal job
has neither set, `complete` then stores only the result and `fail` only
the error.  (A later terminal call of the opposite kind can set both, as
the counterexample shows.) -/
theorem c2_amended (job_id : String) (ty : JobType) (db : String) (now0 : Int)
    (ops : List (JobOp α)) (j : Job α)
    (h : getJob (runOps (create_job (JobManager.empty α) job_id ty db now0) job_id ops)
        job_id = some j)
    (hnt : j.status.isTerminal = false) (r : α) (e : String) (now : Int) :
    (∀ j1, getJob (complete_job
        (runOps (create_job (JobManager.empty α) job_id ty db now0) job_id ops)
        job_id r now) job_id = some j1 → j1.result = some r ∧ j1.error = none) ∧
    (∀ j1, getJob (fail_job
        (runOps (create_job (JobManager.empty α) job_id ty db now0) job_id ops)
        job_id e now) job_id = some j1 → j1.error = some e ∧ j1.result = none) := by
  have hclean :=
    runOps_cleanNonterminal job_id ops _ (create_job_empty_clean job_id ty db now0)
  have hre := hclean j h hnt
  constructor
  · intro j1 hj1
    rw [getJob_complete_job _ job_id j h r now] at hj1
    cases hj1
    exact ⟨rfl, hre.2⟩
  · intro j1 hj1
    rw [getJob_fail_job _ job_id j h e now] at hj1
    cases hj1
    exact ⟨rfl, hre.1⟩

/-- Registry after `create` and one progress update. -/
def c2_witness_state : JobManager String :=
  runOps (create_job (JobManager.empty String) "job_c" .clustering "db1" 0) "job_c"
    [.update 30 100 (some "working") 1]

/-- Concrete running job used to instantiate the C2 hypotheses. -/
def c2_witness_job : Job String :=
  { id := "job_c", type := .clustering, status := .running, databaseId := "db1",
    progress := some ⟨30, 100, 3000, some "working"⟩, result := none,
    error := none, createdAt := 0, updatedAt := 1, completedAt := none }

/-- C2, witness: the amended statement applied to a concrete run with one
progress update before the first terminal call. -/
theorem c2_witness :
    getJob c2_witness_state "job_c" = some c2_witness_job ∧
    c2_witness_job.status.isTerminal = false ∧
    ((∀ j1, getJob (complete_job c2_witness_state "job_c" "out" 3) "job_c" = some j1 →
        j1.result = some "out" ∧ j1.error = none) ∧
     (∀ j1, getJob (fail_job c2_witness_state "job_c" "boom" 3) "job_c" = some j1 →
        j1.error = some "boom" ∧ j1.result = none)) :=
  ⟨by decide, by decide,
   c2_amended "job_c" .clustering "db1" 0 [.update 30 100 (some "working") 1]
     c2_witness_job (by decide) (by decide) "out" "boom" 3⟩

/-! ### Claim C3 -/

/-- C3: the code contradicts the claimed percentage law on the very inputs
the law singles out.  At `update_progress(id, 5, 0, "step")` on a pending
job the claim requires a stored snapshot with percentage 0; the code
computes percentage 0 but then builds `JobProgress(current=5, total=0,
percentage=0)`, whose pydantic bound `total ≥ 1` fails, so a
ValidationError is raised and nothing is stored.  At
`update_progress(id, 150, 100)` the claim requires clamping to 100; the
code computes 150.0 unclamped and the `percentage ≤ 100` bound raises
instead of storing. -/
theorem c3_validation_raises :
    update_progress (create_job (JobManager.empty String) "job_d" .clustering "db1" 0)
      "job_d" 5 0 (some "step") 1 = .error "ValidationError" ∧
    update_progress (create_job (JobManager.empty String) "job_d" .clustering "db1" 0)
      "job_d" 150 100 none 1 = .error "ValidationError" := by
  decide

/-! ### Claim C4 -/

theorem job_expired_iff (max_age_hours now : Int) (j : Job α) :
    job_expired max_age_hours now j = true ↔
      (j.status.isTerminal = true ∧
        ∃ t, j.completedAt = some t ∧ 3600 * max_age_hours < now - t) := by
  unfold job_expired
  cases j.completedAt <;> simp

/-- C4: `cleanup_old_jobs` retains exactly the jobs that are not
(terminal with a completion timestamp strictly older than `max_age_hours`
hours); in particular a Pending or Running job is never removed,
regardless of its age. -/
theorem c4_sweep_safety (m : JobManager α) (max_age_hours now : Int) :
    (∀ p : String × Job α,
      p ∈ (cleanup_old_jobs m max_age_hours now).jobs ↔
        (p ∈ m.jobs ∧ ¬(p.2.status.isTerminal = true ∧
          ∃ t, p.2.completedAt = some t ∧ 3600 * max_age_hours < now - t))) ∧
    (∀ p : String × Job α, p ∈ m.jobs →
      (p.2.status = .pending ∨ p.2.status = .running) →
      p ∈ (cleanup_old_jobs m max_age_hours now).jobs) := by
  have hmem : ∀ p : String × Job α,
      p ∈ (cleanup_old_jobs m max_age_hours now).jobs ↔
        (p ∈ m.jobs ∧ ¬(p.2.status.isTerminal = true ∧
          ∃ t, p.2.completedAt = some t ∧ 3600 * max_age_hours < now - t)) := by
    intro p
    unfold cleanup_old_jobs
    rw [List.mem_filter]
    constructor
    · rintro ⟨hp, hb⟩
      refine ⟨hp, ?_⟩
      rw [← job_expired_iff max_age_hours now p.2]
      simp only [Bool.not_eq_true] at hb ⊢
      simpa using hb
    · rintro ⟨hp, hb⟩
      refine ⟨hp, ?_⟩
      rw [← job_expired_iff max_age_hours now p.2] at hb
      simpa using hb
  refine ⟨hmem, ?_⟩
  intro p hp hst
  rw [hmem p]
  refine ⟨hp, ?_⟩
  rintro ⟨hterm, -⟩
  rcases hst with hst | hst <;> rw [hst] at hterm <;> simp [JobStatus.isTerminal] at hterm

/-- Ancient pending job for the C4 witness. -/
def c4_witness_pending : Job String :=
  { id := "old_pending", type := .clustering, status := .pending,
    databaseId := "db1", progress := none, result := none, error := none,
    createdAt := 0, updatedAt := 0, completedAt := none }

/-- Ancient failed job for the C4 witness. -/
def c4_witness_failed : Job String :=
  { id := "old_failed", type := .concepts, status := .failed,
    databaseId := "db1", progress := none, result := none,
    error := some "boom", createdAt := 0, updatedAt := 10,
    completedAt := some 10 }

/-- Registry with one ancient pending job and one ancient failed job. -/
def c4_witness_state : JobManager String :=
  ⟨[("old_pending", c4_witness_pending), ("old_failed", c4_witness_failed)], []⟩

/-- C4, witness: the sweep on a concrete registry keeps the ancient pending
job (by the theorem) while the ancient failed job is gone (checked by
evaluation). -/
theorem c4_witness :
    ("old_pending", c4_witness_pending) ∈
        (cleanup_old_jobs c4_witness_state 24 1000000000).jobs ∧
    (cleanup_old_jobs c4_witness_state 24 1000000000).jobs.length = 1 :=
  ⟨(c4_sweep_safety c4_witness_state 24 1000000000).2 _ (by decide)
     (Or.inl (by decide)),
   by decide⟩

/-! ### Claim C5 -/

/-- C5: the `execute_job` driver of a known job converts the task outcome —
normal return to `complete` with the returned result, any raised fault to
`fail` with the fault's message followed by its traceback text — and, being
a total function into registry states, never re-raises the fault. -/
theorem c5_run_boundary (m : JobManager α) (job_id : String) (j : Job α)
    (h : getJob m job_id = some j) (r : α) (msg trace : String) (now : Int) :
    getJob (execute_job m job_id (.ok r) now) job_id =
      some { j with
             status := .completed, result := some r,
             progress := some ⟨100, 100, 10000, some "Completed"⟩,
             updatedAt := now, completedAt := some now } ∧
    getJob (execute_job m job_id (.raises msg trace) now) job_id =
      some { j with
             status := .failed,
             error := some (msg ++ "\n\nTraceback:\n" ++ trace),
             updatedAt := now, completedAt := some now } := by
  have h1 : getJob (setJob m job_id { j with status := .running, updatedAt := now })
      job_id = some { j with status := .running, updatedAt := now } :=
    getJob_setJob m job_id j _ h
  constructor
  · have he : execute_job m job_id (.ok r) now =
        complete_job (setJob m job_id { j with status := .running, updatedAt := now })
          job_id r now := by
      unfold execute_job
      rw [h]
    rw [he, getJob_complete_job _ job_id _ h1 r now]
  · have he : execute_job m job_id (.raises msg trace) now =
        fail_job (setJob m job_id { j with status := .running, updatedAt := now })
          job_id (msg ++ "\n\nTraceback:\n" ++ trace) now := by
      unfold execute_job
      rw [h]
    rw [he, getJob_fail_job _ job_id _ h1 _ now]

/-- Registry with one freshly created job. -/
def c5_witness_state : JobManager String :=
  create_job (JobManager.empty String) "job_e" .relationships "db1" 0

/-- Concrete pending job used to instantiate the C5 hypothesis. -/
def c5_witness_job : Job String :=
  { id := "job_e", type := .relationships, status := .pending, databaseId := "db1",
    progress := none, result := none, error := none,
    createdAt := 0, updatedAt := 0, completedAt := none }

/-- C5, witness: the run-boundary theorem applied to a concrete job for a
returning task and for a raising task. -/
theorem c5_witness :
    getJob c5_witness_state "job_e" = some c5_witness_job ∧
    (getJob (execute_job c5_witness_state "job_e" (.ok "res") 4) "job_e" =
       some { c5_witness_job with
              status := .completed, result := some "res",
              progress := some ⟨100, 100, 10000, some "Completed"⟩,
              updatedAt := 4, completedAt := some 4 } ∧
     getJob (execute_job c5_witness_state "job_e" (.raises "oops" "tb") 4) "job_e" =
       some { c5_witness_job with
              status := .failed,
              error := some ("oops" ++ "\n\nTraceback:\n" ++ "tb"),
              updatedAt := 4, completedAt := some 4 }) :=
  ⟨by decide,
   c5_run_boundary c5_witness_state "job_e" c5_witness_job (by decide)
     "res" "oops" "tb" 4⟩

/-! ### Claim C10 -/

/-- C10: `fail_job` on a known non-terminal job keeps the stored progress
snapshot (and the identity, kind, owner, result and creation-time fields),
changing only status, error and the two timestamps — whereas `complete_job`
overwrites the snapshot with the 100% one. -/
theorem c10_fail_frame (m : JobManager α) (job_id : String) (j : Job α)
    (h : getJob m job_id = some j) (_hnt : j.status.isTerminal = false)
    (e : String) (r : α) (now : Int) :
    (∀ j1, getJob (fail_job m job_id e now) job_id = some j1 →
       j1.progress = j.progress ∧ j1.status = .failed ∧ j1.error = some e ∧
       j1.updatedAt = now ∧ j1.completedAt = some now ∧
       j1.id = j.id ∧ j1.type = j.type ∧ j1.databaseId = j.databaseId ∧
       j1.result = j.result ∧ j1.createdAt = j.createdAt) ∧
    (∀ j1, getJob (complete_job m job_id r now) job_id = some j1 →
       j1.progress = some ⟨100, 100, 10000, some "Completed"⟩) := by
  constructor
  · intro j1 hj1
    rw [getJob_fail_job m job_id j h e now] at hj1
    cases hj1
    exact ⟨rfl, rfl, rfl, rfl, rfl, rfl, rfl, rfl, rfl, rfl⟩
  · intro j1 hj1
    rw [getJob_complete_job m job_id j h r now] at hj1
    cases hj1
    rfl

/-- Registry after `create` and one progress update, for C10. -/
def c10_witness_state : JobManager String :=
  runOps (create_job (JobManager.empty String) "job_f" .attributes "db2" 0) "job_f"
    [.update 40 80 (some "halfway") 2]

/-- Concrete running job with a progress snapshot, for C10. -/
def c10_witness_job : Job String :=
  { id := "job_f", type := .attributes, status := .running, databaseId := "db2",
    progress := some ⟨40, 80, 5000, some "halfway"⟩, result := none,
    error := none, createdAt := 0, updatedAt := 2, completedAt := none }

/-- C10, witness: failing the concrete half-done job keeps its snapshot,
completing it overwrites the snapshot. -/
theorem c10_witness :
    getJob c10_witness_state "job_f" = some c10_witness_job ∧
    c10_witness_job.status.isTerminal = false ∧
    ((∀ j1, getJob (fail_job c10_witness_state "job_f" "boom" 7) "job_f" = some j1 →
        j1.progress = c10_witness_job.progress ∧ j1.status = .failed ∧
        j1.error = some "boom" ∧ j1.updatedAt = 7 ∧ j1.completedAt = some 7 ∧
        j1.id = c10_witness_job.id ∧ j1.type = c10_witness_job.type ∧
        j1.databaseId = c10_witness_job.databaseId ∧
        j1.result = c10_witness_job.result ∧
        j1.createdAt = c10_witness_job.createdAt) ∧
     (∀ j1, getJob (complete_job c10_witness_state "job_f" "done" 7) "job_f" = some j1 →
        j1.progress = some ⟨100, 100, 10000, some "Completed"⟩)) :=
  ⟨by decide, by decide,
   c10_fail_frame c10_witness_state "job_f" c10_witness_job (by decide) (by decide)
     "boom" "done" 7⟩

/-! ### Model slot manager (`backend/app/services/model_manager.py`) -/

inductive ModelStatus where
  | not_loaded
  | loading
  | ready
  | error
  | unloaded
  deriving DecidableEq

/-- Python truthiness of an optional string (`None` and `""` are falsy),
as used by `config.get("model_path")`-style conditions. -/
def pyTruthy : Option String → Bool
  | none => false
  | some s => !(s == "")

/-- Abstraction of an external resource handle (`FastLocalModel` or a
compatible class, an out-of-repo collaborator): only the capabilities the
manager probes via `hasattr`, and whether the probed calls raise, are
tracked.  `hasApplyAdapter` stands for "some name among the
`apply_candidates` list exists"; `hasRemoveAdapter` likewise for the
`remove_candidates`; `hasUnloadModel`/`hasExit` for the teardown hooks.
`id` distinguishes separately constructed instances. -/
structure Model where
  id : Nat
  hasApplyAdapter : Bool
  applyAdapterFails : Bool
  hasRemoveAdapter : Bool
  hasUnloadModel : Bool
  unloadModelFails : Bool
  hasExit : Bool
  exitFails : Bool
  deriving DecidableEq

/-- Per-slot configuration as stored by `configure_models`; the
`model_class` entry and the extra `**model_kwargs` are abstracted into the
factory function passed to the loading operation. -/
structure SlotConfig where
  model_path : Option String
  adapter_path : Option String
  deriving DecidableEq

/-- `ModelInfo`.  The `loading_thread` field is a concurrency artifact
with no sequentially observable effect and is omitted. -/
structure ModelInfo where
  status : ModelStatus
  model : Option Model
  error : Option String
  config : SlotConfig
  last_used : Int
  use_count : Nat
  deriving DecidableEq

/-- The manager state.  `factoryCalls` counts invocations of the model
factory (`model_class(...)` inside `_load_model_sync`), making "a fresh
load was attempted" observable. -/
structure ModelManager where
  models : List (String × ModelInfo)
  config : List (String × SlotConfig)
  initialized : Bool
  auto_unload : Bool
  factoryCalls : Nat
  deriving DecidableEq

/-- A model factory: from the running call count and the slot's stored
config, construct a handle or raise.  Models `model_class(lazy_load=False,
**config)`. -/
def Factory : Type := Nat → SlotConfig → Except String Model

def emptyInfo : ModelInfo :=
  { status := .not_loaded, model := none, error := none,
    config := ⟨none, none⟩, last_used := 0, use_count := 0 }

/-- `ModelManager.__init__`: the five fixed slots, not loaded, auto-unload
enabled by default. -/
def ModelManager.init : ModelManager :=
  { models := [("base", emptyInfo), ("concept", emptyInfo),
               ("relationship", emptyInfo), ("attribute", emptyInfo),
               ("naming", emptyInfo)],
    config := [], initialized := false, auto_unload := true, factoryCalls := 0 }

def getInfo (st : ModelManager) (name : String) : Option ModelInfo :=
  (st.models.find? (fun p => p.1 == name)).map (·.2)

def setInfoList (models : List (String × ModelInfo)) (name : String)
    (i : ModelInfo) : List (String × ModelInfo) :=
  models.map (fun p => if p.1 == name then (p.1, i) else p)

def setInfo (st : ModelManager) (name : String) (i : ModelInfo) : ModelManager :=
  { st with models := setInfoList st.models name i }

/-- `ModelManager.configure_models` — the live first half of the function
(the duplicated legacy block after the stray docstring expression is
unreachable, since `_initialized` was just set and the guard returns).
Every slot's `model_path` is the base model path; adapter paths are per
task.  The `concept_model_path`/`relationship_model_path`/... parameters
of the Python signature are unused on the live path and omitted here;
`model_class` and `**model_kwargs` are abstracted into the factory. -/
def configure_models (st : ModelManager) (base_model_path base_adapter_path
    concept_adapter_path relationship_adapter_path attribute_adapter_path
    naming_adapter_path : Option String) (auto_unload : Bool) : ModelManager :=
  if st.initialized then st
  else
    let cfg : List (String × SlotConfig) :=
      [("base", ⟨base_model_path, base_adapter_path⟩),
       ("concept", ⟨base_model_path, concept_adapter_path⟩),
       ("relationship", ⟨base_model_path, relationship_adapter_path⟩),
       ("attribute", ⟨base_model_path, attribute_adapter_path⟩),
       ("naming", ⟨base_model_path, naming_adapter_path⟩)]
    let models := st.models.map (fun p =>
      match cfg.find? (fun q => q.1 == p.1) with
      | some q => (p.1, { p.2 with config := q.2 })
      | none => p)
    { st with
      models := models, config := cfg,
      auto_unload := auto_unload, initialized := true }

/-- `ModelManager._load_model_sync`.  The sleep-poll wait for a concurrent
loader is a concurrency construct: in this sequential embedding a slot is
never at rest in Loading, and after the wait the code falls through to a
reload unless the slot became Ready — the fall-through is what is
embedded.  Returns the new state and `()` or the re-raised load fault. -/
def load_model_sync (factory : Factory) (now : Int) (st : ModelManager)
    (name : String) : ModelManager × Except String Unit :=
  match getInfo st name with
  | none => (st, .error "KeyError")
  | some info =>
    if info.status == .ready && info.model.isSome then (st, .ok ())
    else
      match factory st.factoryCalls info.config with
      | .ok m =>
        (setInfo { st with factoryCalls := st.factoryCalls + 1 } name
          { info with
            status := .ready, model := some m,
            last_used := now, use_count := info.use_count + 1 }, .ok ())
      | .error e =>
        (setInfo { st with factoryCalls := st.factoryCalls + 1 } name
          { info with status := .error, error := some e }, .error e)

/-- `ModelManager._unload_model_sync`: best-effort teardown.  A raising
teardown hook (`unload_model`, else `__exit__`) is caught and logged, and
the clearing statements after the call are skipped, leaving the slot
untouched; otherwise the handle is dropped and the slot becomes Unloaded.
Only reached with names validated by the caller. -/
def unload_model_sync (st : ModelManager) (name : String) : ModelManager :=
  match getInfo st name with
  | none => st
  | some info =>
    match info.model with
    | none => st
    | some m =>
      let teardownRaises :=
        (m.hasUnloadModel && m.unloadModelFails) ||
        (!m.hasUnloadModel && m.hasExit && m.exitFails)
      if teardownRaises then st
      else setInfo st name { info with model := none, status := .unloaded }

/-- The `finally:` clause of `use_model`: auto-unload of non-base slots. -/
def finallyUnload (st : ModelManager) (name : String) : ModelManager :=
  if st.auto_unload && !(name == "base") then unload_model_sync st name else st

/-- The separate-instance tail of `use_model`: the not-configured check
(`model_path` and `adapter_path` both falsy), then
`_load_model_sync(model_name)`, the usage-stat update and the yield of the
slot's (fresh) handle.  `info0` is the `model_info` variable captured at
the top of `use_model` — its config is never mutated in between. -/
def use_model_fallback (factory : Factory) (now : Int) (st : ModelManager)
    (name : String) (info0 : ModelInfo) : ModelManager × Except String Model :=
  if !(pyTruthy info0.config.model_path) && !(pyTruthy info0.config.adapter_path) then
    (finallyUnload st name, .error "RuntimeError: model not configured")
  else
    match load_model_sync factory now st name with
    | (st1, .error e) => (finallyUnload st1 name, .error e)
    | (st1, .ok _) =>
      match getInfo st1 name with
      | some i1 =>
        let st2 := setInfo st1 name
          { i1 with last_used := now, use_count := i1.use_count + 1 }
        match i1.model with
        | some m => (st2, .ok m)
        | none => (st2, .error "unreachable: loaded slot has no model")
      | none => (st1, .error "KeyError")

/-- Entry half of the `use_model` context manager, up to the `yield`,
returning the handle the `with` block receives; when a fault is raised
before the yield, the generator's `finally:` (auto-unload of non-base
slots) runs and the fault propagates to the caller as the error case. -/
def use_model_enter (factory : Factory) (now : Int) (st : ModelManager)
    (name : String) : ModelManager × Except String Model :=
  match getInfo st name with
  | none => (st, .error "ValueError: unknown model")
  | some info0 =>
    if !st.initialized then (st, .error "RuntimeError: not configured")
    else if name == "base" then
      match load_model_sync factory now st "base" with
      | (st1, .error e) => (st1, .error e)
      | (st1, .ok _) =>
        match getInfo st1 "base" with
        | some b1 =>
          let st2 := setInfo st1 "base"
            { b1 with last_used := now, use_count := b1.use_count + 1 }
          match b1.model with
          | some m => (st2, .ok m)
          | none => (st2, .error "unreachable: loaded slot has no model")
        | none => (st1, .error "KeyError")
    else
      let step1 : ModelManager × Except String Unit :=
        match getInfo st "base" with
        | some b0 =>
          if pyTruthy b0.config.model_path && b0.status == .not_loaded then
            load_model_sync factory now st "base"
          else (st, .ok ())
        | none => (st, .ok ())
      match step1 with
      | (st1, .error e) => (finallyUnload st1 name, .error e)
      | (st1, .ok _) =>
        match getInfo st1 "base" with
        | some b1 =>
          if b1.status == .ready && pyTruthy info0.config.adapter_path then
            match b1.model with
            | some bm =>
              if bm.hasApplyAdapter then
                if bm.applyAdapterFails then
                  use_model_fallback factory now st1 name info0
                else
                  match getInfo st1 name with
                  | some i1 =>
                    let st2 := setInfo st1 name
                      { i1 with
                        model := some bm, status := .ready,
                        last_used := now, use_count := i1.use_count + 1 }
                    (st2, .ok bm)
                  | none => (st1, .error "KeyError")
              else use_model_fallback factory now st1 name info0
            | none => use_model_fallback factory now st1 name info0
          else use_model_fallback factory now st1 name info0
        | none => use_model_fallback factory now st1 name info0

/-- Exit half of `use_model` after a successful yield: the adapter-branch
inner `finally:` removal of the adapter acts only on the external resource
(untracked here, and its faults are swallowed), then the outer `finally:`
auto-unloads non-base slots. -/
def use_model_exit (st : ModelManager) (name : String) : ModelManager :=
  finallyUnload st name

/-- `ModelManager.get_status` (raises ValueError on an unknown name). -/
def get_status (st : ModelManager) (name : String) : Except String ModelStatus :=
  match getInfo st name with
  | none => .error "ValueError: unknown model"
  | some info => .ok info.status

/-- `ModelManager.is_ready`. -/
def is_ready (st : ModelManager) (name : String) : Except String Bool :=
  match get_status st name with
  | .error e => .error e
  | .ok s => .ok (s == .ready)

/-- `ModelManager.get_all_statuses`. -/
def get_all_statuses (st : ModelManager) : List (String × ModelStatus) :=
  st.models.map (fun p => (p.1, p.2.status))

/-- Loop of `are_all_ready` over the `_config` items. -/
def are_all_ready_go (st : ModelManager) :
    List (String × SlotConfig) → Except String Bool
  | [] => .ok true
  | (name, cfg) :: rest =>
    if pyTruthy cfg.model_path then
      match is_ready st name with
      | .error e => .error e
      | .ok true => are_all_ready_go st rest
      | .ok false => .ok false
    else are_all_ready_go st rest

/-- `ModelManager.are_all_ready`: readiness of every `_config` entry whose
`model_path` is truthy. -/
def are_all_ready (st : ModelManager) : Except String Bool :=
  are_all_ready_go st st.config

/-- One iteration of the `unload_all_models` loop over a slot. -/
def unload_all_step (p : String × ModelInfo) : String × ModelInfo :=
  match p.2.model with
  | none => p
  | some m =>
    if m.hasUnloadModel && m.unloadModelFails then p
    else (p.1, { p.2 with model := none, status := .not_loaded })

/-- `ModelManager.unload_all_models`: for each slot holding a resident
model, call its `unload_model` hook if present (a raising hook is caught
and logged, leaving that slot unchanged, and the loop continues with the
next slot), then drop the handle and set NotLoaded; slots without a
resident model are skipped entirely; finally `_initialized` is cleared.
The GPU cache clearing is external and swallowed. -/
def unload_all_models (st : ModelManager) : ModelManager :=
  { st with models := st.models.map unload_all_step, initialized := false }

/-- Definition following the words of the spec, for the C8 comparison:
"all_ready is true only if every configured task whose slot has an overlay
configured is currently ready; tasks with no configured overlay are
excluded from the check". -/
def all_overlay_ready_spec (st : ModelManager) : Bool :=
  st.config.all (fun p =>
    if p.2.adapter_path.isSome then
      decide ((getInfo st p.1).map ModelInfo.status = some .ready)
    else true)

/-! ### Claim C6 -/

/-- Manager configured once with a base model path and a concept adapter. -/
def c6_state_first : ModelManager :=
  configure_models ModelManager.init (some "/models/base") none
    (some "/adapters/concept") none none none false

/-- C6, counterexample: a second `configure_models` call with a different
configuration returns normally, leaving the whole state — in particular
the first configuration — unchanged; the claim requires an error to be
raised on configuration drift. -/
theorem c6_counterexample :
    configure_models c6_state_first (some "/models/other") none
        (some "/adapters/other") none none none true = c6_state_first ∧
    (c6_state_first.config.find? (fun p => p.1 == "concept")).map (·.2) =
      some ⟨some "/models/base", some "/adapters/concept"⟩ := by
  decide

/-- C6 (amended): every repeated `configure_models` call — with the same
or a different configuration — is a silent no-op guarded only by the
`_initialized` flag; the manager keeps its first configuration and no
error is raised on drift. -/
theorem c6_amended (st : ModelManager) (h : st.initialized = true)
    (p1 p2 p3 p4 p5 p6 : Option String) (au : Bool) :
    configure_models st p1 p2 p3 p4 p5 p6 au = st := by
  unfold configure_models
  rw [if_pos h]

/-- C6, witness: the amended statement applied to the concretely configured
manager. -/
theorem c6_witness :
    c6_state_first.initialized = true ∧
    configure_models c6_state_first none none none none none none true =
      c6_state_first :=
  ⟨by decide,
   c6_amended c6_state_first (by decide) none none none none none none true⟩

/-! ### Claim C7 -/

/-- Factory for Scenario C: the first construction raises
`IOError("disk full")`; later constructions return a working handle. -/
def c7_factory : Factory := fun k _ =>
  if k == 0 then .error "disk full"
  else .ok { id := k, hasApplyAdapter := true, applyAdapterFails := false,
             hasRemoveAdapter := true, hasUnloadModel := true,
             unloadModelFails := false, hasExit := false, exitFails := false }

/-- Manager configured with a base model path and concept/relationship
adapters, nothing loaded yet. -/
def c7_state0 : ModelManager :=
  configure_models ModelManager.init (some "/models/base") none
    (some "/adapters/concept") (some "/adapters/relationship") none none false

/-- State after `acquire("concept")` hit the failing base load. -/
def c7_after_first : ModelManager :=
  (use_model_enter c7_factory 10 c7_state0 "concept").1

/-- The handle constructed by the second, successful factory call. -/
def c7_model1 : Model :=
  { id := 1, hasApplyAdapter := true, applyAdapterFails := false,
    hasRemoveAdapter := true, hasUnloadModel := true,
    unloadModelFails := false, hasExit := false, exitFails := false }

/-- C7: Scenario C.  `acquire("concept")` with the base slot NotLoaded and
a raising factory leaves the base slot in Error with the fault message
cached, and the fault propagates to the caller of `acquire`; the
subsequent `acquire("relationship")` does not re-raise the cached error
but attempts a fresh load — the factory is invoked a second time — which
here succeeds and yields a ready handle. -/
theorem c7_load_failure_semantics :
    (use_model_enter c7_factory 10 c7_state0 "concept").2 = .error "disk full" ∧
    (getInfo c7_after_first "base").map ModelInfo.status = some .error ∧
    (getInfo c7_after_first "base").map ModelInfo.error =
      some (some "disk full") ∧
    (use_model_enter c7_factory 20 c7_after_first "relationship").2 =
      .ok c7_model1 ∧
    (getInfo (use_model_enter c7_factory 20 c7_after_first "relationship").1
        "relationship").map ModelInfo.status = some .ready ∧
    (use_model_enter c7_factory 20 c7_after_first "relationship").1.factoryCalls
      = 2 := by
  decide

/-! ### Claim C8 -/

/-- Factory that always yields an adapter-capable handle. -/
def c8_factory : Factory := fun k _ =>
  .ok { id := k, hasApplyAdapter := true, applyAdapterFails := false,
        hasRemoveAdapter := true, hasUnloadModel := true,
        unloadModelFails := false, hasExit := false, exitFails := false }

/-- Manager configured with a base model path and only a concept adapter. -/
def c8_state0 : ModelManager :=
  configure_models ModelManager.init (some "/models/base") none
    (some "/adapters/concept") none none none false

/-- State after one full `use_model("concept")` scope: base Ready, concept
Ready, the overlay-less relationship/attribute/naming slots NotLoaded. -/
def c8_state1 : ModelManager :=
  use_model_exit (use_model_enter c8_factory 10 c8_state0 "concept").1 "concept"

/-- C8, counterexample: every task with a configured overlay (only
"concept") is ready, so the claim demands `all_ready() = true`; but the
code keys the check on the stored `model_path` — which `configure_models`
sets to the base path for every slot — so the overlay-less NotLoaded
slots make `are_all_ready` return false. -/
theorem c8_counterexample :
    are_all_ready c8_state1 = .ok false ∧
    all_overlay_ready_spec c8_state1 = true := by
  decide

theorem are_all_ready_go_eq (st : ModelManager) (l : List (String × SlotConfig))
    (hkeys : ∀ p ∈ l, (getInfo st p.1).isSome) :
    are_all_ready_go st l =
      .ok (l.all (fun p => !(pyTruthy p.2.model_path) ||
        decide ((getInfo st p.1).map ModelInfo.status = some .ready))) := by
  induction l with
  | nil => rfl
  | cons p rest ih =>
    obtain ⟨i, hi⟩ :=
      Option.isSome_iff_exists.mp (hkeys p (List.mem_cons_self p rest))
    have hrest : ∀ q ∈ rest, (getInfo st q.1).isSome := fun q hq =>
      hkeys q (List.mem_cons_of_mem p hq)
    cases p with
    | mk name cfg =>
      have hr : is_ready st name = .ok (i.status == .ready) := by
        unfold is_ready get_status
        rw [hi]
      simp only [are_all_ready_go, List.all_cons]
      rw [hr]
      by_cases hp : pyTruthy cfg.model_path = true
      · simp only [hp, if_true]
        cases hready : (i.status == .ready) with
        | true =>
          have hst : (getInfo st name).map ModelInfo.status = some .ready := by
            rw [hi]
            simp [beq_iff_eq.mp hready]
          rw [ih hrest]
          simp [hp, hst]
        | false =>
          have hst : ¬((getInfo st name).map ModelInfo.status = some .ready) := by
            rw [hi]
            intro hcontra
            have hc2 : i.status = .ready := by simpa using hcontra
            rw [hc2] at hready
            simp at hready
          simp [hp, hst]
      · have hp' : pyTruthy cfg.model_path = false := by
          revert hp
          cases pyTruthy cfg.model_path <;> simp
        rw [if_neg hp, ih hrest]
        simp [hp']

/-- C8 (amended): `are_all_ready` returns true exactly when every `_config`
entry with a truthy `model_path` has a Ready slot; since `configure_models`
stores the base model path as every slot's `model_path`, tasks with no
configured overlay are included in the check (rather than excluded) and do
make the answer false while they are not loaded. -/
theorem c8_amended (st : ModelManager)
    (hkeys : ∀ p ∈ st.config, (getInfo st p.1).isSome) :
    are_all_ready st = .ok true ↔
      ∀ p ∈ st.config, pyTruthy p.2.model_path = true →
        (getInfo st p.1).map ModelInfo.status = some .ready := by
  unfold are_all_ready
  rw [are_all_ready_go_eq st st.config hkeys]
  simp only [Except.ok.injEq]
  rw [List.all_eq_true]
  constructor
  · intro h p hp htr
    have hb := h p hp
    rw [htr] at hb
    simpa using hb
  · intro h p hp
    by_cases htr : pyTruthy p.2.model_path = true
    · rw [htr]
      simpa using h p hp htr
    · have htr' : pyTruthy p.2.model_path = false := by
        revert htr
        cases pyTruthy p.2.model_path <;> simp
      rw [htr']
      simp

/-- C8, witness: the amended characterization applied to the concrete
post-acquire state (where its right-hand side is indeed false, matching
`are_all_ready = ok false`). -/
theorem c8_witness :
    (∀ p ∈ c8_state1.config, (getInfo c8_state1 p.1).isSome) ∧
    (are_all_ready c8_state1 = .ok true ↔
      ∀ p ∈ c8_state1.config, pyTruthy p.2.model_path = true →
        (getInfo c8_state1 p.1).map ModelInfo.status = some .ready) :=
  ⟨by decide, c8_amended c8_state1 (by decide)⟩

/-! ### Claim C9 -/

/-- Factory that always raises. -/
def c9_factory_fail : Factory := fun _ _ => .error "disk full"

/-- Reachable state whose concept slot is in Error with no resident
handle: configure without a base model path, then let
`acquire("concept")` hit the raising factory. -/
def c9_state_err : ModelManager :=
  (use_model_enter c9_factory_fail 5
    (configure_models ModelManager.init none none (some "/adapters/concept")
      none none none false)
    "concept").1

/-- C9, counterexample: the claim says that after `unload_all()` every
slot — including those in Error state — has status NotLoaded; but the loop
skips slots without a resident handle, so the Error slot keeps status
Error. -/
theorem c9_counterexample :
    (getInfo c9_state_err "concept").map ModelInfo.status = some .error ∧
    (getInfo (unload_all_models c9_state_err) "concept").map ModelInfo.status =
      some .error := by
  decide

/-- C9 (amended): after `unload_all_models` the manager is back in the
unconfigured state, and each slot is processed independently (one slot's
raising teardown cannot abort the others): a slot holding a model whose
`unload_model` hook does not raise ends NotLoaded with no handle; a slot
with no resident handle (NotLoaded, Error after a failed load, or
Unloaded) is skipped and keeps its status; a slot whose hook raises keeps
its handle and status. -/
theorem c9_amended (st : ModelManager) :
    (unload_all_models st).initialized = false ∧
    ∀ p ∈ st.models,
      (p.2.model = none → p ∈ (unload_all_models st).models) ∧
      (∀ m, p.2.model = some m →
        (m.hasUnloadModel && m.unloadModelFails) = true →
        p ∈ (unload_all_models st).models) ∧
      (∀ m, p.2.model = some m →
        (m.hasUnloadModel && m.unloadModelFails) = false →
        (p.1, { p.2 with model := none, status := .not_loaded }) ∈
          (unload_all_models st).models) := by
  refine ⟨rfl, ?_⟩
  intro p hp
  refine ⟨?_, ?_, ?_⟩
  · intro hnone
    refine List.mem_map.mpr ⟨p, hp, ?_⟩
    simp [unload_all_step, hnone]
  · intro m hm hfail
    refine List.mem_map.mpr ⟨p, hp, ?_⟩
    simp [unload_all_step, hm, hfail]
  · intro m hm hok
    refine List.mem_map.mpr ⟨p, hp, ?_⟩
    simp [unload_all_step, hm, hok]

/-- Handle whose teardown hook works. -/
def c9w_good_model : Model :=
  { id := 1, hasApplyAdapter := false, applyAdapterFails := false,
    hasRemoveAdapter := false, hasUnloadModel := true,
    unloadModelFails := false, hasExit := false, exitFails := false }

/-- Handle whose teardown hook raises. -/
def c9w_bad_model : Model :=
  { id := 2, hasApplyAdapter := false, applyAdapterFails := false,
    hasRemoveAdapter := false, hasUnloadModel := true,
    unloadModelFails := true, hasExit := false, exitFails := false }

/-- Ready slot with the well-behaved handle. -/
def c9w_good : ModelInfo :=
  { status := .ready, model := some c9w_good_model, error := none,
    config := ⟨some "/models/base", none⟩, last_used := 3, use_count := 1 }

/-- Ready slot with the raising handle. -/
def c9w_bad : ModelInfo :=
  { status := .ready, model := some c9w_bad_model, error := none,
    config := ⟨some "/models/base", none⟩, last_used := 4, use_count := 2 }

/-- Manager holding a raising slot before a well-behaved one. -/
def c9_witness_state : ModelManager :=
  { models := [("bad", c9w_bad), ("good", c9w_good)],
    config := [], initialized := true, auto_unload := false, factoryCalls := 0 }

/-- C9, witness: the amended statement applied to a concrete manager — the
slot after the raising one is still torn down to NotLoaded, while the
raising slot keeps its handle. -/
theorem c9_witness :
    ("good", c9w_good) ∈ c9_witness_state.models ∧
    ("bad", c9w_bad) ∈ c9_witness_state.models ∧
    (("good", { c9w_good with model := none, status := .not_loaded }) ∈
        (unload_all_models c9_witness_state).models ∧
     ("bad", c9w_bad) ∈ (unload_all_models c9_witness_state).models) :=
  ⟨by decide, by decide,
   ((c9_amended c9_witness_state).2 ("good", c9w_good) (by decide)).2.2
      c9w_good_model (by decide) (by decide),
   ((c9_amended c9_witness_state).2 ("bad", c9w_bad) (by decide)).2.1
      c9w_bad_model (by decide) (by decide)⟩

end HamiltonGui
